import Mathlib

/-!
Verification of the builder-proj-mcp project scaffolder.

The development shallowly embeds the TypeScript sources:

* `src/types.ts` — the `ProjectConfig` / `BuilderResult` / `ProjectBuilder` data model;
* `src/builders/index.ts` — the `BuilderFactory` registry (`getBuilder`,
  `getSupportedFrameworks`);
* `src/index.ts` — the `CallToolRequestSchema` handler for `build_project`;
* the per-framework builders cited by the claims (`react-builder.ts`,
  `vite-builder.ts`, `express-builder.ts`, `flask-builder.ts`,
  `spring-boot-builder.ts`).

Filesystem effects are embedded as explicit traces: a builder's `build`
produces the ordered list of `mkdir` / `writeFile` calls it issues, with every
path relative to the project root (`projectPath`); in the sources every path is
`path.join(projectPath, ...)`, and the root itself is the empty segment list.
`fs` failures are an oracle `Nat → Option String` giving the error text thrown
by the n-th filesystem call, `none` when that call succeeds; the `try/catch`
boundary of each `build` is the `runBuild` wrapper.  Untyped JavaScript option
values (`Record<string, any>`) are the inductive `JsVal`, with JavaScript
truthiness and `x || default` modelled by `JsVal.truthy` and `jsOr`.
-/

/-- A JavaScript runtime value as it can appear in the untyped `options`
record (`Record<string, any>` in `src/types.ts`). -/
inductive JsVal where
  | str : String → JsVal
  | num : Int → JsVal
  | bool : Bool → JsVal
  | null : JsVal
deriving DecidableEq

/-- JavaScript truthiness of a value: `''`, `0`, `false` and `null` are falsy. -/
def JsVal.truthy : JsVal → Bool
  | .str s => s ≠ ""
  | .num n => n ≠ 0
  | .bool b => b
  | .null => false

/-- JavaScript string coercion as performed by template-literal interpolation. -/
def JsVal.render : JsVal → String
  | .str s => s
  | .num n => toString n
  | .bool b => if b then "true" else "false"
  | .null => "null"

/-- The JavaScript idiom `v || d` used for option defaulting (`options.javaVersion
|| '17'` and the like): a missing or falsy value gives the default, any truthy
value is used as-is. -/
def jsOr (v : Option JsVal) (d : JsVal) : JsVal :=
  match v with
  | some x => if x.truthy then x else d
  | none => d

/-- The option keys the modelled builders read from `config.options`.  A field
is `none` when the caller did not declare the key (JavaScript `undefined`);
unrecognized declared keys are never read, so they need no field. -/
structure Options where
  typescript : Option JsVal := none
  docker : Option JsVal := none
  tests : Option JsVal := none
  javaVersion : Option JsVal := none
  pythonVersion : Option JsVal := none
  springBootVersion : Option JsVal := none
  groupId : Option JsVal := none
  artifactId : Option JsVal := none
deriving DecidableEq

/-- `ProjectConfig` of `src/types.ts`. -/
structure ProjectConfig where
  projectName : String
  projectType : String := "web"
  framework : String
  options : Options := {}
  outputPath : Option String := none
deriving DecidableEq

/-- `BuilderResult` of `src/types.ts`: `files` and `error` are optional keys. -/
structure BuilderResult where
  success : Bool
  message : String
  files : Option (List String) := none
  error : Option String := none
deriving DecidableEq

/-- One filesystem call issued by a builder.  Paths are segment lists relative
to the project root; `mkdir` is always the recursive variant
(`fs.mkdir(p, { recursive: true })`), `write` is `fs.writeFile` with the file
content. -/
inductive FsOp where
  | mkdir : List String → FsOp
  | write : List String → String → FsOp
deriving DecidableEq

/-- One step of a builder's `try` block: a filesystem call, or a point where
the JavaScript runtime itself throws (a `TypeError` from calling a string
method on a non-string option value). -/
inductive Step where
  | op : FsOp → Step
  | jsError : String → Step
deriving DecidableEq

/-- Run the steps in order against the failure oracle, starting at call
index `i`: the filesystem calls performed before the first failure, and the
message of the thrown error when one was thrown. -/
def runSteps (fail : Nat → Option String) : Nat → List Step → List FsOp × Option String
  | _, [] => ([], none)
  | i, .op o :: rest =>
    match fail i with
    | some e => ([], some e)
    | none =>
      let r := runSteps fail (i + 1) rest
      (o :: r.1, r.2)
  | _, .jsError e :: _ => ([], some e)

/-- The filesystem calls a step list would issue when nothing fails. -/
def stepsOps (steps : List Step) : List FsOp :=
  steps.filterMap fun
    | .op o => some o
    | .jsError _ => none

/-- The `try { ... } catch (error) { ... }` boundary shared by every builder's
`build`: on success the builder's success literal is returned, on any thrown
error the generic failure literal with the captured error text. -/
def runBuild (fail : Nat → Option String) (steps : List Step) (okMsg : String)
    (okFiles : List String) (failMsg : String) : BuilderResult × List FsOp :=
  match runSteps fail 0 steps with
  | (done, none) => ({ success := true, message := okMsg, files := some okFiles }, done)
  | (done, some e) => ({ success := false, message := failMsg, error := some e }, done)

/-- The paths of the files written by a trace. -/
def writePaths (ops : List FsOp) : List (List String) :=
  ops.filterMap fun
    | .write p _ => some p
    | .mkdir _ => none

/-- A relative segment path rendered with `/` separators. -/
def pathStr (p : List String) : String := String.intercalate "/" p

/-- The written file paths of a trace, rendered as strings. -/
def writePathStrs (ops : List FsOp) : List String := (writePaths ops).map pathStr

/-- All prefixes of a segment path, the empty (project-root) path included:
recursive `mkdir` creates every missing ancestor. -/
def pathPrefixes : List String → List (List String)
  | [] => [[]]
  | x :: xs => [] :: (pathPrefixes xs).map (x :: ·)

/-- Checks that the trace only writes files whose parent directory (the
project root included) was created by an earlier `mkdir` of the same trace;
`dirs` accumulates the directories created so far. -/
def orderedOpsB : List (List String) → List FsOp → Bool
  | _, [] => true
  | dirs, .mkdir p :: rest => orderedOpsB (dirs ++ pathPrefixes p) rest
  | dirs, .write p _ :: rest => dirs.contains p.dropLast && orderedOpsB dirs rest

/-- String suffix test on the character list (used for file extensions). -/
def hasSuffix (s suffix : String) : Bool := suffix.data.isSuffixOf s.data

/-- An oracle under which every filesystem call succeeds. -/
def noFailure : Nat → Option String := fun _ => none

/-- ASCII lower-casing of one character, as `String.prototype.toLowerCase`
acts on the basic latin range (the only characters registered identifiers
use). -/
def lowerChar (c : Char) : Char :=
  if 65 ≤ c.toNat ∧ c.toNat ≤ 90 then Char.ofNat (c.toNat + 32) else c

/-- `framework.toLowerCase()` of `BuilderFactory.getBuilder`. -/
def toLowerCase (s : String) : String := String.mk (s.data.map lowerChar)

/-- The registered builder classes, `src/builders/index.ts`. -/
inductive BuilderId where
  | springBoot | react | vue | fastapi | django | flask | vite | express | fastify | nestjs | nextjs | nuxt
deriving DecidableEq, Fintype

/-- Each builder's `supportedFrameworks` field, as declared in its class. -/
def supportedFrameworks : BuilderId → List String
  | .springBoot => ["spring-boot", "spring", "spring-mvc", "spring-webflux"]
  | .react => ["react", "react-vite", "react-cra"]
  | .vue => ["vue", "vue3", "vue-vite"]
  | .fastapi => ["fastapi", "fastapi-uvicorn", "fastapi-gunicorn"]
  | .django => ["django", "django-rest", "django-cms"]
  | .flask => ["flask", "flask-rest", "flask-sqlalchemy"]
  | .vite => ["vite", "vite-vanilla", "vite-ts"]
  | .express => ["express", "express-ts", "express-rest"]
  | .fastify => ["fastify", "fastify-ts", "fastify-rest"]
  | .nestjs => ["nestjs", "nest", "nestjs-rest", "nestjs-graphql"]
  | .nextjs => ["next", "nextjs", "next-app", "next-pages"]
  | .nuxt => ["nuxt", "nuxt3"]

/-- `BuilderFactory.builders`, in registration order. -/
def builders : List BuilderId :=
  [.springBoot, .react, .vue, .fastapi, .django, .flask, .vite, .express, .fastify, .nestjs, .nextjs, .nuxt]

/-- `BuilderFactory.getBuilder`: the first registered builder whose
`supportedFrameworks` contains the lower-cased identifier; `null` (here
`none`) when there is none. -/
def getBuilder (framework : String) : Option BuilderId :=
  builders.find? fun builder => (supportedFrameworks builder).contains (toLowerCase framework)

/-- `BuilderFactory.getSupportedFrameworks`: all identifiers in registration
order, declaration order within a builder. -/
def getSupportedFrameworks : List String := builders.flatMap supportedFrameworks

/-- Outcome of the `build_project` branch of the `CallToolRequestSchema`
handler before any builder runs: the two `throw new Error(...)` rejections,
or dispatch to the resolved builder. -/
inductive CallOutcome where
  | invalid : String → CallOutcome
  | unknown : String → CallOutcome
  | dispatched : BuilderId → CallOutcome
deriving DecidableEq

/-- The `build_project` branch of the `CallToolRequestSchema` handler in
`src/index.ts`: reject a missing `projectName`/`framework`, then reject an
identifier the registry cannot resolve (the message enumerating every
supported identifier), else dispatch to the resolved builder. -/
def handleBuildProject (projectName framework : String) : CallOutcome :=
  if projectName == "" || framework == "" then
    .invalid "projectName and framework are required"
  else
    match getBuilder framework with
    | none =>
      .unknown ("Unsupported framework: " ++ framework ++ ". Supported frameworks: "
        ++ String.intercalate ", " getSupportedFrameworks)
    | some b => .dispatched b

/-- The filesystem activity of one handled call, given any interpretation
`buildOps` of what each builder's `build` would do: the handler itself
touches the filesystem only through the dispatched builder. -/
def callFsOps (buildOps : BuilderId → List FsOp) : CallOutcome → List FsOp
  | .dispatched b => buildOps b
  | _ => []

namespace ReactBuilder

/-- `supportedFrameworks` of `ReactBuilder`. -/
def frameworks : List String := supportedFrameworks .react

/-- The `packageJson` object of `createViteReactProject`, as
`JSON.stringify(packageJson, null, 2)` renders it. -/
def vitePackageJsonContent (projectName : String) : String :=
  "\x7b\n" ++
  "  \"name\": \"" ++ projectName ++ "\",\n" ++
  "  \"version\": \"0.0.0\",\n" ++
  "  \"type\": \"module\",\n" ++
  "  \"scripts\": \x7b\n" ++
  "    \"dev\": \"vite\",\n" ++
  "    \"build\": \"vite build\",\n" ++
  "    \"preview\": \"vite preview\",\n" ++
  "    \"lint\": \"eslint . --ext ts,tsx --report-unused-disable-directives --max-warnings 0\"\n" ++
  "  \x7d,\n" ++
  "  \"dependencies\": \x7b\n" ++
  "    \"react\": \"^18.2.0\",\n" ++
  "    \"react-dom\": \"^18.2.0\"\n" ++
  "  \x7d,\n" ++
  "  \"devDependencies\": \x7b\n" ++
  "    \"@types/react\": \"^18.2.43\",\n" ++
  "    \"@types/react-dom\": \"^18.2.17\",\n" ++
  "    \"@vitejs/plugin-react\": \"^4.2.1\",\n" ++
  "    \"eslint\": \"^8.55.0\",\n" ++
  "    \"eslint-plugin-react-hooks\": \"^4.6.0\",\n" ++
  "    \"eslint-plugin-react-refresh\": \"^0.4.5\",\n" ++
  "    \"typescript\": \"^5.2.2\",\n" ++
  "    \"vite\": \"^5.0.8\"\n" ++
  "  \x7d\n" ++
  "\x7d"

/-- The `viteConfig` template of `createViteReactProject`. -/
def viteConfigContent : String :=
  "import \x7b defineConfig \x7d from 'vite'\n" ++
  "import react from '@vitejs/plugin-react'\n" ++
  "\n" ++
  "export default defineConfig(\x7b\n" ++
  "  plugins: [react()],\n" ++
  "\x7d)\n"

/-- The `tsconfig` template of `createViteReactProject`. -/
def tsconfigContent : String :=
  "\x7b\n" ++
  "  \"compilerOptions\": \x7b\n" ++
  "    \"target\": \"ES2020\",\n" ++
  "    \"useDefineForClassFields\": true,\n" ++
  "    \"lib\": [\"ES2020\", \"DOM\", \"DOM.Iterable\"],\n" ++
  "    \"module\": \"ESNext\",\n" ++
  "    \"skipLibCheck\": true,\n" ++
  "    \"moduleResolution\": \"bundler\",\n" ++
  "    \"allowImportingTsExtensions\": true,\n" ++
  "    \"resolveJsonModule\": true,\n" ++
  "    \"isolatedModules\": true,\n" ++
  "    \"noEmit\": true,\n" ++
  "    \"jsx\": \"react-jsx\",\n" ++
  "    \"strict\": true,\n" ++
  "    \"noUnusedLocals\": true,\n" ++
  "    \"noUnusedParameters\": true,\n" ++
  "    \"noFallthroughCasesInSwitch\": true\n" ++
  "  \x7d,\n" ++
  "  \"include\": [\"src\"],\n" ++
  "  \"references\": [\x7b \"path\": \"./tsconfig.node.json\" \x7d]\n" ++
  "\x7d\n"

/-- The `tsconfig.node.json` template of `createViteReactProject`. -/
def tsconfigNodeContent : String :=
  "\x7b\n" ++
  "  \"compilerOptions\": \x7b\n" ++
  "    \"composite\": true,\n" ++
  "    \"skipLibCheck\": true,\n" ++
  "    \"module\": \"ESNext\",\n" ++
  "    \"moduleResolution\": \"bundler\",\n" ++
  "    \"allowSyntheticDefaultImports\": true\n" ++
  "  \x7d,\n" ++
  "  \"include\": [\"vite.config.ts\"]\n" ++
  "\x7d"

/-- The `appContent` template of `createReactSourceFiles` (`tsxExt` is
interpolated twice into the JSX body). -/
def appContent (tsxExt : String) : String :=
  "import \x7b useState \x7d from 'react'\n" ++
  "import reactLogo from './assets/react.svg'\n" ++
  "import viteLogo from '/vite.svg'\n" ++
  "import './App" ++ tsxExt ++ "'\n" ++
  "\n" ++
  "function App() \x7b\n" ++
  "  const [count, setCount] = useState(0)\n" ++
  "\n" ++
  "  return (\n" ++
  "    <>\n" ++
  "      <div>\n" ++
  "        <a href=\"https://vitejs.dev\" target=\"_blank\">\n" ++
  "          <img src=\x7bviteLogo\x7d className=\"logo\" alt=\"Vite logo\" />\n" ++
  "        </a>\n" ++
  "        <a href=\"https://react.dev\" target=\"_blank\">\n" ++
  "          <img src=\x7breactLogo\x7d className=\"logo react\" alt=\"React logo\" />\n" ++
  "        </a>\n" ++
  "      </div>\n" ++
  "      <h1>Vite + React</h1>\n" ++
  "      <div className=\"card\">\n" ++
  "        <button onClick=\x7b() => setCount((count) => count + 1)\x7d>\n" ++
  "          count is \x7bcount\x7d\n" ++
  "        </button>\n" ++
  "        <p>\n" ++
  "          Edit <code>src/App" ++ tsxExt ++ "</code> and save to test HMR\n" ++
  "        </p>\n" ++
  "      </div>\n" ++
  "      <p className=\"read-the-docs\">\n" ++
  "        Click on the Vite and React logos to learn more\n" ++
  "      </p>\n" ++
  "    </>\n" ++
  "  )\n" ++
  "\x7d\n" ++
  "\n" ++
  "export default App\n"

/-- The `mainContent` template of `createReactSourceFiles`. -/
def mainContent (tsxExt : String) : String :=
  "import React from 'react'\n" ++
  "import ReactDOM from 'react-dom/client'\n" ++
  "import App from './App" ++ tsxExt ++ "'\n" ++
  "import './index.css'\n" ++
  "\n" ++
  "ReactDOM.createRoot(document.getElementById('root')!).render(\n" ++
  "  <React.StrictMode>\n" ++
  "    <App />\n" ++
  "  </React.StrictMode>,\n" ++
  ")\n"

/-- The `cssContent` template of `createReactSourceFiles`. -/
def cssContent : String :=
  ":root \x7b\n" ++
  "  font-family: Inter, system-ui, Avenir, Helvetica, Arial, sans-serif;\n" ++
  "  line-height: 1.5;\n" ++
  "  font-weight: 400;\n" ++
  "\n" ++
  "  color-scheme: light dark;\n" ++
  "  color: rgba(255, 255, 255, 0.87);\n" ++
  "  background-color: #242424;\n" ++
  "\n" ++
  "  font-synthesis: none;\n" ++
  "  text-rendering: optimizeLegibility;\n" ++
  "  -webkit-font-smoothing: antialiased;\n" ++
  "  -moz-osx-font-smoothing: grayscale;\n" ++
  "\x7d\n" ++
  "\n" ++
  "a \x7b\n" ++
  "  font-weight: 500;\n" ++
  "  color: #646cff;\n" ++
  "  text-decoration: inherit;\n" ++
  "\x7d\n" ++
  "a:hover \x7b\n" ++
  "  color: #535bf2;\n" ++
  "\x7d\n" ++
  "\n" ++
  "body \x7b\n" ++
  "  margin: 0;\n" ++
  "  display: flex;\n" ++
  "  place-items: center;\n" ++
  "  min-width: 320px;\n" ++
  "  min-height: 100vh;\n" ++
  "\x7d\n" ++
  "\n" ++
  "h1 \x7b\n" ++
  "  font-size: 3.2em;\n" ++
  "  line-height: 1.1;\n" ++
  "\x7d\n" ++
  "\n" ++
  "button \x7b\n" ++
  "  border-radius: 8px;\n" ++
  "  border: 1px solid transparent;\n" ++
  "  padding: 0.6em 1.2em;\n" ++
  "  font-size: 1em;\n" ++
  "  font-weight: 500;\n" ++
  "  font-family: inherit;\n" ++
  "  background-color: #1a1a1a;\n" ++
  "  cursor: pointer;\n" ++
  "  transition: border-color 0.25s;\n" ++
  "\x7d\n" ++
  "button:hover \x7b\n" ++
  "  border-color: #646cff;\n" ++
  "\x7d\n" ++
  "button:focus,\n" ++
  "button:focus-visible \x7b\n" ++
  "  outline: 4px auto -webkit-focus-ring-color;\n" ++
  "\x7d\n" ++
  "\n" ++
  "@media (prefers-color-scheme: light) \x7b\n" ++
  "  :root \x7b\n" ++
  "    color: #213547;\n" ++
  "    background-color: #ffffff;\n" ++
  "  \x7d\n" ++
  "  a:hover \x7b\n" ++
  "    color: #747bff;\n" ++
  "  \x7d\n" ++
  "  button \x7b\n" ++
  "    background-color: #f9f9f9;\n" ++
  "  \x7d\n" ++
  "\x7d\n"

/-- The `index.html` template of `createIndexHtml` (note the hard-coded
`/src/main.tsx` script source). -/
def indexHtmlContent (projectName : String) : String :=
  "<!doctype html>\n" ++
  "<html lang=\"en\">\n" ++
  "  <head>\n" ++
  "    <meta charset=\"UTF-8\" />\n" ++
  "    <link rel=\"icon\" type=\"image/svg+xml\" href=\"/vite.svg\" />\n" ++
  "    <meta name=\"viewport\" content=\"width=device-width, initial-scale=1.0\" />\n" ++
  "    <title>" ++ projectName ++ "</title>\n" ++
  "  </head>\n" ++
  "  <body>\n" ++
  "    <div id=\"root\"></div>\n" ++
  "    <script type=\"module\" src=\"/src/main.tsx\"></script>\n" ++
  "  </body>\n" ++
  "</html>\n"

/-- The `packageJson` object of `createCRAProject`, as
`JSON.stringify(packageJson, null, 2)` renders it. -/
def craPackageJsonContent (projectName : String) : String :=
  "\x7b\n" ++
  "  \"name\": \"" ++ projectName ++ "\",\n" ++
  "  \"version\": \"0.1.0\",\n" ++
  "  \"private\": true,\n" ++
  "  \"dependencies\": \x7b\n" ++
  "    \"react\": \"^18.2.0\",\n" ++
  "    \"react-dom\": \"^18.2.0\",\n" ++
  "    \"react-scripts\": \"5.0.1\",\n" ++
  "    \"web-vitals\": \"^2.1.4\"\n" ++
  "  \x7d,\n" ++
  "  \"scripts\": \x7b\n" ++
  "    \"start\": \"react-scripts start\",\n" ++
  "    \"build\": \"react-scripts build\",\n" ++
  "    \"test\": \"react-scripts test\",\n" ++
  "    \"eject\": \"react-scripts eject\"\n" ++
  "  \x7d,\n" ++
  "  \"eslintConfig\": \x7b\n" ++
  "    \"extends\": [\n" ++
  "      \"react-app\",\n" ++
  "      \"react-app/jest\"\n" ++
  "    ]\n" ++
  "  \x7d,\n" ++
  "  \"browserslist\": \x7b\n" ++
  "    \"production\": [\n" ++
  "      \">0.2%\",\n" ++
  "      \"not dead\",\n" ++
  "      \"not op_mini all\"\n" ++
  "    ],\n" ++
  "    \"development\": [\n" ++
  "      \"last 1 chrome version\",\n" ++
  "      \"last 1 firefox version\",\n" ++
  "      \"last 1 safari version\"\n" ++
  "    ]\n" ++
  "  \x7d\n" ++
  "\x7d"

/-- The `tsconfig` template of `createCRAProject`. -/
def craTsconfigContent : String :=
  "\x7b\n" ++
  "  \"compilerOptions\": \x7b\n" ++
  "    \"target\": \"es5\",\n" ++
  "    \"lib\": [\"dom\", \"dom.iterable\", \"esnext\"],\n" ++
  "    \"allowJs\": true,\n" ++
  "    \"skipLibCheck\": true,\n" ++
  "    \"esModuleInterop\": true,\n" ++
  "    \"allowSyntheticDefaultImports\": true,\n" ++
  "    \"strict\": true,\n" ++
  "    \"forceConsistentCasingInFileNames\": true,\n" ++
  "    \"noFallthroughCasesInSwitch\": true,\n" ++
  "    \"module\": \"esnext\",\n" ++
  "    \"moduleResolution\": \"node\",\n" ++
  "    \"resolveJsonModule\": true,\n" ++
  "    \"isolatedModules\": true,\n" ++
  "    \"noEmit\": true,\n" ++
  "    \"jsx\": \"react-jsx\"\n" ++
  "  \x7d,\n" ++
  "  \"include\": [\"src\"]\n" ++
  "\x7d"

/-- The `indexHtml` template of `createPublicFolder`. -/
def publicIndexHtmlContent (projectName : String) : String :=
  "<!DOCTYPE html>\n" ++
  "<html lang=\"en\">\n" ++
  "  <head>\n" ++
  "    <meta charset=\"utf-8\" />\n" ++
  "    <meta name=\"viewport\" content=\"width=device-width, initial-scale=1\" />\n" ++
  "    <meta name=\"theme-color\" content=\"#000000\" />\n" ++
  "    <meta name=\"description\" content=\"Web site created using create-react-app\" />\n" ++
  "    <title>" ++ projectName ++ "</title>\n" ++
  "  </head>\n" ++
  "  <body>\n" ++
  "    <noscript>You need to enable JavaScript to run this app.</noscript>\n" ++
  "    <div id=\"root\"></div>\n" ++
  "  </body>\n" ++
  "</html>\n"

/-- The `.gitignore` template of `ReactBuilder.createGitignore`. -/
def gitignoreContent : String :=
  "# Logs\n" ++
  "logs\n" ++
  "*.log\n" ++
  "npm-debug.log*\n" ++
  "yarn-debug.log*\n" ++
  "yarn-error.log*\n" ++
  "pnpm-debug.log*\n" ++
  "lerna-debug.log*\n" ++
  "\n" ++
  "node_modules\n" ++
  "dist\n" ++
  "dist-ssr\n" ++
  "*.local\n" ++
  "\n" ++
  "# Editor directories and files\n" ++
  ".vscode/*\n" ++
  "!.vscode/extensions.json\n" ++
  ".idea\n" ++
  ".DS_Store\n" ++
  "*.suo\n" ++
  "*.ntvs*\n" ++
  "*.njsproj\n" ++
  "*.sln\n" ++
  "*.sw?\n"

/-- `createReactSourceFiles`: `mkdir src`, write `App`/`main` with the
`tsxExt` extension and `index.css`, `mkdir src/assets`.  `useTypeScript` and
`tsExt` are passed but unused, as in the source. -/
def createReactSourceFiles (_useTypeScript : Bool) (tsxExt _tsExt : String) : List Step :=
  [.op (.mkdir ["src"]),
   .op (.write ["src", "App" ++ tsxExt] (appContent tsxExt)),
   .op (.write ["src", "main" ++ tsxExt] (mainContent tsxExt)),
   .op (.write ["src", "index.css"] cssContent),
   .op (.mkdir ["src", "assets"])]

/-- `createIndexHtml`. -/
def createIndexHtml (projectName : String) : List Step :=
  [.op (.write ["index.html"] (indexHtmlContent projectName))]

/-- `createPublicFolder`. -/
def createPublicFolder (projectName : String) : List Step :=
  [.op (.mkdir ["public"]),
   .op (.write ["public", "index.html"] (publicIndexHtmlContent projectName))]

/-- `createGitignore`. -/
def createGitignore : List Step :=
  [.op (.write [".gitignore"] gitignoreContent)]

/-- `createViteReactProject`: note that `tsExt` carries a leading dot, so the
vite config file name `vite.config.${tsExt}` really is `vite.config..ts`
(resp. `vite.config..js`), as in the source. -/
def createViteReactProject (projectName : String) (useTypeScript : Bool) : List Step :=
  let tsxExt := if useTypeScript then ".tsx" else ".jsx"
  let tsExt := if useTypeScript then ".ts" else ".js"
  [.op (.write ["package.json"] (vitePackageJsonContent projectName)),
   .op (.write ["vite.config." ++ tsExt] viteConfigContent)] ++
  (if useTypeScript then
    [.op (.write ["tsconfig.json"] tsconfigContent),
     .op (.write ["tsconfig.node.json"] tsconfigNodeContent)]
   else []) ++
  createReactSourceFiles useTypeScript tsxExt tsExt ++
  createIndexHtml projectName ++
  createGitignore

/-- `createCRAProject`. -/
def createCRAProject (projectName : String) (useTypeScript : Bool) : List Step :=
  let tsxExt := if useTypeScript then ".tsx" else ".jsx"
  let tsExt := if useTypeScript then ".ts" else ".js"
  [.op (.write ["package.json"] (craPackageJsonContent projectName))] ++
  (if useTypeScript then [.op (.write ["tsconfig.json"] craTsconfigContent)] else []) ++
  createReactSourceFiles useTypeScript tsxExt tsExt ++
  createPublicFolder projectName ++
  createGitignore

/-- The `try` block of `ReactBuilder.build`: create the project root, then
compose the Vite or CRA variant.  `useTypeScript` is
`options.typescript !== false`; `useVite` compares the *original-case*
`framework` string with `===`. -/
def buildSteps (config : ProjectConfig) : List Step :=
  let useTypeScript := config.options.typescript != some (JsVal.bool false)
  let useVite := config.framework == "react-vite" || config.framework == "react"
  .op (.mkdir []) ::
    (if useVite then createViteReactProject config.projectName useTypeScript
     else createCRAProject config.projectName useTypeScript)

/-- `ReactBuilder.build`: the composed steps under the `try/catch` boundary,
with the success literal's hard-coded `files` list. -/
def build (fail : Nat → Option String) (config : ProjectConfig) : BuilderResult × List FsOp :=
  runBuild fail (buildSteps config)
    ("React project '" ++ config.projectName ++ "' created successfully")
    ["package.json", "src/App.tsx", "src/main.tsx", "index.html"]
    "Failed to create React project"

end ReactBuilder

namespace ViteBuilder

/-- `supportedFrameworks` of `ViteBuilder`. -/
def frameworks : List String := supportedFrameworks .vite

/-- The `packageJson` object of `createViteProject`, as
`JSON.stringify(packageJson, null, 2)` renders it. -/
def packageJsonContent (projectName : String) : String :=
  "\x7b\n" ++
  "  \"name\": \"" ++ projectName ++ "\",\n" ++
  "  \"version\": \"0.0.0\",\n" ++
  "  \"type\": \"module\",\n" ++
  "  \"scripts\": \x7b\n" ++
  "    \"dev\": \"vite\",\n" ++
  "    \"build\": \"vite build\",\n" ++
  "    \"preview\": \"vite preview\"\n" ++
  "  \x7d,\n" ++
  "  \"devDependencies\": \x7b\n" ++
  "    \"vite\": \"^5.0.8\"\n" ++
  "  \x7d\n" ++
  "\x7d"

/-- The `viteConfig` template of `createViteProject`. -/
def viteConfigContent : String :=
  "import \x7b defineConfig \x7d from 'vite'\n" ++
  "\n" ++
  "export default defineConfig(\x7b\n" ++
  "  server: \x7b\n" ++
  "    port: 3000,\n" ++
  "    open: true\n" ++
  "  \x7d\n" ++
  "\x7d)\n"

/-- The `tsconfig` template of `createViteProject`. -/
def tsconfigContent : String :=
  "\x7b\n" ++
  "  \"compilerOptions\": \x7b\n" ++
  "    \"target\": \"ES2020\",\n" ++
  "    \"useDefineForClassFields\": true,\n" ++
  "    \"module\": \"ESNext\",\n" ++
  "    \"lib\": [\"ES2020\", \"DOM\", \"DOM.Iterable\"],\n" ++
  "    \"skipLibCheck\": true,\n" ++
  "    \"moduleResolution\": \"bundler\",\n" ++
  "    \"allowImportingTsExtensions\": true,\n" ++
  "    \"resolveJsonModule\": true,\n" ++
  "    \"isolatedModules\": true,\n" ++
  "    \"noEmit\": true,\n" ++
  "    \"strict\": true,\n" ++
  "    \"noUnusedLocals\": true,\n" ++
  "    \"noUnusedParameters\": true,\n" ++
  "    \"noFallthroughCasesInSwitch\": true\n" ++
  "  \x7d,\n" ++
  "  \"include\": [\"src\"]\n" ++
  "\x7d"

/-- The `mainContent` template of `createSourceFiles`. -/
def mainContent : String :=
  "import './style.css'\n" ++
  "\n" ++
  "document.querySelector('#app').innerHTML = `\n" ++
  "  <h1>Hello Vite!</h1>\n" ++
  "  <a href=\"https://vitejs.dev/guide/features.html\" target=\"_blank\">Documentation</a>\n" ++
  "`\n"

/-- The `styleContent` template of `createSourceFiles`. -/
def styleContent : String :=
  ":root \x7b\n" ++
  "  font-family: Inter, system-ui, Avenir, Helvetica, Arial, sans-serif;\n" ++
  "  line-height: 1.5;\n" ++
  "  font-weight: 400;\n" ++
  "\n" ++
  "  color-scheme: light dark;\n" ++
  "  color: rgba(255, 255, 255, 0.87);\n" ++
  "  background-color: #242424;\n" ++
  "\n" ++
  "  font-synthesis: none;\n" ++
  "  text-rendering: optimizeLegibility;\n" ++
  "  -webkit-font-smoothing: antialiased;\n" ++
  "  -moz-osx-font-smoothing: grayscale;\n" ++
  "\x7d\n" ++
  "\n" ++
  "body \x7b\n" ++
  "  margin: 0;\n" ++
  "  display: flex;\n" ++
  "  place-items: center;\n" ++
  "  min-width: 320px;\n" ++
  "  min-height: 100vh;\n" ++
  "\x7d\n" ++
  "\n" ++
  "#app \x7b\n" ++
  "  max-width: 1280px;\n" ++
  "  margin: 0 auto;\n" ++
  "  padding: 2rem;\n" ++
  "  text-align: center;\n" ++
  "\x7d\n" ++
  "\n" ++
  "@media (prefers-color-scheme: light) \x7b\n" ++
  "  :root \x7b\n" ++
  "    color: #213547;\n" ++
  "    background-color: #ffffff;\n" ++
  "  \x7d\n" ++
  "\x7d\n"

/-- The `index.html` template of `ViteBuilder.createIndexHtml` (hard-coded
`/src/main.js` script source). -/
def indexHtmlContent (projectName : String) : String :=
  "<!doctype html>\n" ++
  "<html lang=\"en\">\n" ++
  "  <head>\n" ++
  "    <meta charset=\"UTF-8\" />\n" ++
  "    <meta name=\"viewport\" content=\"width=device-width, initial-scale=1.0\" />\n" ++
  "    <title>" ++ projectName ++ "</title>\n" ++
  "  </head>\n" ++
  "  <body>\n" ++
  "    <div id=\"app\"></div>\n" ++
  "    <script type=\"module\" src=\"/src/main.js\"></script>\n" ++
  "  </body>\n" ++
  "</html>\n"

/-- The `.gitignore` template of `ViteBuilder.createGitignore` (verbatim the
same text as the React one). -/
def gitignoreContent : String :=
  "# Logs\n" ++
  "logs\n" ++
  "*.log\n" ++
  "npm-debug.log*\n" ++
  "yarn-debug.log*\n" ++
  "yarn-error.log*\n" ++
  "pnpm-debug.log*\n" ++
  "lerna-debug.log*\n" ++
  "\n" ++
  "node_modules\n" ++
  "dist\n" ++
  "dist-ssr\n" ++
  "*.local\n" ++
  "\n" ++
  "# Editor directories and files\n" ++
  ".vscode/*\n" ++
  "!.vscode/extensions.json\n" ++
  ".idea\n" ++
  ".DS_Store\n" ++
  "*.suo\n" ++
  "*.ntvs*\n" ++
  "*.njsproj\n" ++
  "*.sln\n" ++
  "*.sw?\n"

/-- `ViteBuilder.createSourceFiles`. -/
def createSourceFiles (_useTypeScript : Bool) (jsExt : String) : List Step :=
  [.op (.mkdir ["src"]),
   .op (.write ["src", "main." ++ jsExt] mainContent),
   .op (.write ["src", "style.css"] styleContent)]

/-- `ViteBuilder.createIndexHtml`. -/
def createIndexHtml (projectName : String) : List Step :=
  [.op (.write ["index.html"] (indexHtmlContent projectName))]

/-- `ViteBuilder.createGitignore`. -/
def createGitignore : List Step :=
  [.op (.write [".gitignore"] gitignoreContent)]

/-- `createViteProject` (here `jsExt` has no dot, so the config file is
`vite.config.ts` / `vite.config.js`). -/
def createViteProject (projectName : String) (useTypeScript : Bool) : List Step :=
  let jsExt := if useTypeScript then "ts" else "js"
  [.op (.write ["package.json"] (packageJsonContent projectName)),
   .op (.write ["vite.config." ++ jsExt] viteConfigContent)] ++
  (if useTypeScript then [.op (.write ["tsconfig.json"] tsconfigContent)] else []) ++
  createSourceFiles useTypeScript jsExt ++
  createIndexHtml projectName ++
  createGitignore

/-- The `try` block of `ViteBuilder.build`: `useTypeScript` is
`framework === 'vite-ts' || options.typescript !== false`. -/
def buildSteps (config : ProjectConfig) : List Step :=
  let useTypeScript :=
    config.framework == "vite-ts" || config.options.typescript != some (JsVal.bool false)
  .op (.mkdir []) :: createViteProject config.projectName useTypeScript

/-- `ViteBuilder.build` with its hard-coded success `files` list. -/
def build (fail : Nat → Option String) (config : ProjectConfig) : BuilderResult × List FsOp :=
  runBuild fail (buildSteps config)
    ("Vite project '" ++ config.projectName ++ "' created successfully")
    ["package.json", "index.html", "src/main.js"]
    "Failed to create Vite project"

end ViteBuilder

namespace ExpressBuilder

/-- `supportedFrameworks` of `ExpressBuilder`. -/
def frameworks : List String := supportedFrameworks .express

/-- The full `devDependencies` object of `createPackageJson` as
`JSON.stringify` renders it at its nesting depth. -/
def devDependenciesFullContent : String :=
  "\x7b\n" ++
  "    \"nodemon\": \"^3.0.2\",\n" ++
  "    \"@types/express\": \"^4.17.21\",\n" ++
  "    \"@types/node\": \"^20.10.5\",\n" ++
  "    \"@types/cors\": \"^2.8.17\",\n" ++
  "    \"@types/morgan\": \"^1.9.9\",\n" ++
  "    \"typescript\": \"^5.3.3\",\n" ++
  "    \"ts-node\": \"^10.9.2\"\n" ++
  "  \x7d"

/-- The `packageJson` object of `createPackageJson`, rendered by
`JSON.stringify(packageJson, null, 2)`: `main`/`scripts` depend on
`useTypeScript`, `express-validator` is appended to `dependencies` when
`useRest`, and without TypeScript `devDependencies` is only `nodemon`. -/
def packageJsonContent (projectName : String) (useTypeScript useRest : Bool) : String :=
  "\x7b\n" ++
  "  \"name\": \"" ++ projectName ++ "\",\n" ++
  "  \"version\": \"1.0.0\",\n" ++
  "  \"description\": \"Express application\",\n" ++
  "  \"main\": \"" ++ (if useTypeScript then "dist/index.js" else "src/index.js") ++ "\",\n" ++
  "  \"scripts\": \x7b\n" ++
  "    \"start\": \"" ++ (if useTypeScript then "node dist/index.js" else "node src/index.js") ++ "\",\n" ++
  "    \"dev\": \"" ++ (if useTypeScript then "nodemon src/index.ts" else "nodemon src/index.js") ++ "\",\n" ++
  "    \"build\": \"" ++ (if useTypeScript then "tsc" else "echo \\\"No build needed for JavaScript\\\"") ++ "\",\n" ++
  "    \"test\": \"jest\"\n" ++
  "  \x7d,\n" ++
  "  \"dependencies\": \x7b\n" ++
  "    \"express\": \"^4.18.2\",\n" ++
  "    \"dotenv\": \"^16.3.1\",\n" ++
  "    \"cors\": \"^2.8.5\",\n" ++
  "    \"helmet\": \"^7.1.0\",\n" ++
  "    \"morgan\": \"^1.10.0\"" ++
  (if useRest then ",\n    \"express-validator\": \"^7.0.1\"\n" else "\n") ++
  "  \x7d,\n" ++
  "  \"devDependencies\": " ++
  (if useTypeScript then devDependenciesFullContent
   else "\x7b\n    \"nodemon\": \"^3.0.2\"\n  \x7d") ++ "\n" ++
  "\x7d"

/-- The main-application template of `createMainApplication`. -/
def indexContent (projectName : String) : String :=
  "import express, \x7b Application, Request, Response \x7d from 'express';\n" ++
  "import cors from 'cors';\n" ++
  "import helmet from 'helmet';\n" ++
  "import morgan from 'morgan';\n" ++
  "import dotenv from 'dotenv';\n" ++
  "import \x7b errorHandler \x7d from './middleware/errorHandler';\n" ++
  "import routes from './routes';\n" ++
  "\n" ++
  "dotenv.config();\n" ++
  "\n" ++
  "const app: Application = express();\n" ++
  "const PORT = process.env.PORT || 3000;\n" ++
  "\n" ++
  "app.use(helmet());\n" ++
  "app.use(cors());\n" ++
  "app.use(morgan('dev'));\n" ++
  "app.use(express.json());\n" ++
  "app.use(express.urlencoded(\x7b extended: true \x7d));\n" ++
  "\n" ++
  "app.get('/', (req: Request, res: Response) => \x7b\n" ++
  "  res.json(\x7b message: 'Welcome to " ++ projectName ++ "' \x7d);\n" ++
  "\x7d);\n" ++
  "\n" ++
  "app.get('/health', (req: Request, res: Response) => \x7b\n" ++
  "  res.json(\x7b status: 'healthy', timestamp: new Date().toISOString() \x7d);\n" ++
  "\x7d);\n" ++
  "\n" ++
  "app.use('/api', routes);\n" ++
  "\n" ++
  "app.use(errorHandler);\n" ++
  "\n" ++
  "app.listen(PORT, () => \x7b\n" ++
  "  console.log(`Server is running on port $\x7bPORT\x7d`);\n" ++
  "\x7d);\n" ++
  "\n" ++
  "export default app;\n"

/-- The REST validation block interpolated into the routes template when
`useRest` (the generated file text, backticks already unescaped). -/
def restRoutesBlock : String :=
  "import \x7b body, validationResult \x7d from 'express-validator';\n" ++
  "\n" ++
  "router.post('/validate', [\n" ++
  "  body('email').isEmail(),\n" ++
  "  body('name').isLength(\x7b min: 3 \x7d)\n" ++
  "], (req: Request, res: Response) => \x7b\n" ++
  "  const errors = validationResult(req);\n" ++
  "  if (!errors.isEmpty()) \x7b\n" ++
  "    return res.status(400).json(\x7b errors: errors.array() \x7d);\n" ++
  "  \x7d\n" ++
  "  res.json(\x7b message: 'Validation passed', data: req.body \x7d);\n" ++
  "\x7d);"

/-- The routes template of `createRoutes`. -/
def routesContent (useRest : Bool) : String :=
  "import \x7b Router, Request, Response \x7d from 'express';\n" ++
  "\n" ++
  "const router = Router();\n" ++
  "\n" ++
  "router.get('/', (req: Request, res: Response) => \x7b\n" ++
  "  res.json(\x7b message: 'API endpoint' \x7d);\n" ++
  "\x7d);\n" ++
  "\n" ++
  (if useRest then restRoutesBlock else "") ++
  "\n" ++
  "\n" ++
  "export default router;\n"

/-- The config template of `createConfig`. -/
def configContent : String :=
  "export const config = \x7b\n" ++
  "  port: process.env.PORT || 3000,\n" ++
  "  nodeEnv: process.env.NODE_ENV || 'development',\n" ++
  "  database: \x7b\n" ++
  "    host: process.env.DB_HOST || 'localhost',\n" ++
  "    port: parseInt(process.env.DB_PORT || '5432'),\n" ++
  "    name: process.env.DB_NAME || 'mydb',\n" ++
  "    user: process.env.DB_USER || 'user',\n" ++
  "    password: process.env.DB_PASSWORD || 'password'\n" ++
  "  \x7d\n" ++
  "\x7d;\n"

/-- The error-handler template of `createConfig`. -/
def errorHandlerContent : String :=
  "import \x7b Request, Response, NextFunction \x7d from 'express';\n" ++
  "\n" ++
  "export const errorHandler = (\n" ++
  "  err: Error,\n" ++
  "  req: Request,\n" ++
  "  res: Response,\n" ++
  "  next: NextFunction\n" ++
  ") => \x7b\n" ++
  "  console.error(err.stack);\n" ++
  "  res.status(500).json(\x7b\n" ++
  "    message: 'Something went wrong!',\n" ++
  "    error: process.env.NODE_ENV === 'development' ? err.message : \x7b\x7d\n" ++
  "  \x7d);\n" ++
  "\x7d;\n"

/-- The `.env.example` template of `createConfig`. -/
def envContent : String :=
  "PORT=3000\n" ++
  "NODE_ENV=development\n" ++
  "DB_HOST=localhost\n" ++
  "DB_PORT=5432\n" ++
  "DB_NAME=mydb\n" ++
  "DB_USER=user\n" ++
  "DB_PASSWORD=password\n"

/-- The `Dockerfile` template of `createDockerFiles`. -/
def dockerfileContent : String :=
  "FROM node:20-alpine\n" ++
  "\n" ++
  "WORKDIR /app\n" ++
  "\n" ++
  "COPY package*.json ./\n" ++
  "RUN npm install\n" ++
  "\n" ++
  "COPY . .\n" ++
  "\n" ++
  "RUN npm run build\n" ++
  "\n" ++
  "EXPOSE 3000\n" ++
  "\n" ++
  "CMD [\"npm\", \"start\"]\n"

/-- The `docker-compose.yml` template of `createDockerFiles`. -/
def dockerComposeContent : String :=
  "version: '3.8'\n" ++
  "\n" ++
  "services:\n" ++
  "  app:\n" ++
  "    build: .\n" ++
  "    ports:\n" ++
  "      - \"3000:3000\"\n" ++
  "    environment:\n" ++
  "      - NODE_ENV=production\n" ++
  "    depends_on:\n" ++
  "      - db\n" ++
  "\n" ++
  "  db:\n" ++
  "    image: postgres:15-alpine\n" ++
  "    environment:\n" ++
  "      - POSTGRES_DB=mydb\n" ++
  "      - POSTGRES_USER=user\n" ++
  "      - POSTGRES_PASSWORD=password\n" ++
  "    volumes:\n" ++
  "      - postgres_data:/var/lib/postgresql/data\n" ++
  "\n" ++
  "volumes:\n" ++
  "  postgres_data:\n"

/-- The test template of `createTestStructure`. -/
def testContent (projectName : String) : String :=
  "import request from 'supertest';\n" ++
  "import app from '../src/index';\n" ++
  "\n" ++
  "describe('" ++ projectName ++ " API', () => \x7b\n" ++
  "  it('should return welcome message', async () => \x7b\n" ++
  "    const response = await request(app).get('/');\n" ++
  "    expect(response.status).toBe(200);\n" ++
  "    expect(response.body.message).toBe('Welcome to " ++ projectName ++ "');\n" ++
  "  \x7d);\n" ++
  "\n" ++
  "  it('should return health status', async () => \x7b\n" ++
  "    const response = await request(app).get('/health');\n" ++
  "    expect(response.status).toBe(200);\n" ++
  "    expect(response.body.status).toBe('healthy');\n" ++
  "  \x7d);\n" ++
  "\x7d);\n"

/-- The `jest.config.js` template of `createTestStructure`. -/
def jestConfigContent : String :=
  "module.exports = \x7b\n" ++
  "  testEnvironment: 'node',\n" ++
  "  coverageDirectory: 'coverage',\n" ++
  "  collectCoverageFrom: [\n" ++
  "    'src/**/*.\x7bjs,ts\x7d',\n" ++
  "    '!src/**/*.d.ts'\n" ++
  "  ],\n" ++
  "  testMatch: [\n" ++
  "    '**/tests/**/*.test.\x7bjs,ts\x7d'\n" ++
  "  ]\n" ++
  "\x7d;\n"

/-- The `.gitignore` template of `ExpressBuilder.createGitignore`. -/
def gitignoreContent : String :=
  "# Dependencies\n" ++
  "node_modules/\n" ++
  "package-lock.json\n" ++
  "yarn.lock\n" ++
  "\n" ++
  "# Build output\n" ++
  "dist/\n" ++
  "build/\n" ++
  "\n" ++
  "# Environment variables\n" ++
  ".env\n" ++
  ".env.local\n" ++
  ".env.*.local\n" ++
  "\n" ++
  "# Logs\n" ++
  "logs/\n" ++
  "*.log\n" ++
  "npm-debug.log*\n" ++
  "yarn-debug.log*\n" ++
  "yarn-error.log*\n" ++
  "\n" ++
  "# Testing\n" ++
  "coverage/\n" ++
  ".nyc_output/\n" ++
  "\n" ++
  "# IDEs\n" ++
  ".vscode/\n" ++
  ".idea/\n" ++
  "*.swp\n" ++
  "*.swo\n" ++
  "*~\n" ++
  "\n" ++
  "# OS\n" ++
  ".DS_Store\n" ++
  "Thumbs.db\n"

/-- `createPackageJson`. -/
def createPackageJson (projectName : String) (useTypeScript useRest : Bool) : List Step :=
  [.op (.write ["package.json"] (packageJsonContent projectName useTypeScript useRest))]

/-- `createSourceStructure`: three recursive `mkdir`s under `src`. -/
def createSourceStructure (_useTypeScript : Bool) : List Step :=
  [.op (.mkdir ["src", "controllers"]),
   .op (.mkdir ["src", "middleware"]),
   .op (.mkdir ["src", "services"])]

/-- `createMainApplication`. -/
def createMainApplication (projectName : String) (useTypeScript : Bool) : List Step :=
  let ext := if useTypeScript then "ts" else "js"
  [.op (.write ["src", "index." ++ ext] (indexContent projectName))]

/-- `createRoutes`. -/
def createRoutes (useTypeScript useRest : Bool) : List Step :=
  let ext := if useTypeScript then "ts" else "js"
  [.op (.write ["src", "routes." ++ ext] (routesContent useRest))]

/-- `createConfig`: config module, error-handler middleware, `.env.example`. -/
def createConfig (useTypeScript : Bool) : List Step :=
  let ext := if useTypeScript then "ts" else "js"
  [.op (.write ["src", "config." ++ ext] configContent),
   .op (.write ["src", "middleware", "errorHandler." ++ ext] errorHandlerContent),
   .op (.write [".env.example"] envContent)]

/-- `ExpressBuilder.createGitignore`. -/
def createGitignore : List Step :=
  [.op (.write [".gitignore"] gitignoreContent)]

/-- `createDockerFiles`. -/
def createDockerFiles : List Step :=
  [.op (.write ["Dockerfile"] dockerfileContent),
   .op (.write ["docker-compose.yml"] dockerComposeContent)]

/-- `createTestStructure`. -/
def createTestStructure (projectName : String) (useTypeScript : Bool) : List Step :=
  [.op (.mkdir ["tests"]),
   .op (.write ["tests", "app.test." ++ (if useTypeScript then "ts" else "js")] (testContent projectName)),
   .op (.write ["jest.config.js"] jestConfigContent)]

/-- The `try` block of `ExpressBuilder.build`. -/
def buildSteps (config : ProjectConfig) : List Step :=
  let useTypeScript :=
    config.framework == "express-ts" || config.options.typescript != some (JsVal.bool false)
  let useRest := config.framework == "express-rest"
  let useDocker := config.options.docker != some (JsVal.bool false)
  let useTests := config.options.tests != some (JsVal.bool false)
  .op (.mkdir []) ::
    (createPackageJson config.projectName useTypeScript useRest ++
     createSourceStructure useTypeScript ++
     createMainApplication config.projectName useTypeScript ++
     createRoutes useTypeScript useRest ++
     createConfig useTypeScript ++
     createGitignore ++
     (if useDocker then createDockerFiles else []) ++
     (if useTests then createTestStructure config.projectName useTypeScript else []))

/-- `ExpressBuilder.build` with its hard-coded success `files` list. -/
def build (fail : Nat → Option String) (config : ProjectConfig) : BuilderResult × List FsOp :=
  runBuild fail (buildSteps config)
    ("Express project '" ++ config.projectName ++ "' created successfully")
    ["package.json", "src/app.ts", "src/routes.ts", "src/config.ts"]
    "Failed to create Express project"

end ExpressBuilder

namespace FlaskBuilder

/-- `supportedFrameworks` of `FlaskBuilder`. -/
def frameworks : List String := supportedFrameworks .flask

/-- The `requirements.txt` content of `createRequirements`: extra lines are
appended for the `flask-rest` and `flask-sqlalchemy` variants (compared with
`===` on the original-case framework string). -/
def requirementsContent (framework : String) : String :=
  "Flask>=3.0.0\n" ++
  "python-dotenv>=1.0.0\n" ++
  (if framework == "flask-rest" then
    "flask-restful>=0.3.10\n" ++
    "flask-cors>=4.0.0\n"
   else if framework == "flask-sqlalchemy" then
    "Flask-SQLAlchemy>=3.1.1\n" ++
    "Flask-Migrate>=4.0.5\n"
   else "")

/-- The `app/__init__.py` template of `createMainApplication`. -/
def initContent : String :=
  "from flask import Flask\n" ++
  "from app.config import Config\n" ++
  "from app.routes import main_bp\n" ++
  "\n" ++
  "def create_app(config_class=Config):\n" ++
  "    app = Flask(__name__)\n" ++
  "    app.config.from_object(config_class)\n" ++
  "    \n" ++
  "    app.register_blueprint(main_bp)\n" ++
  "    \n" ++
  "    return app\n"

/-- The `app/routes.py` template of `createMainApplication`. -/
def routesContent (projectName : String) : String :=
  "from flask import Blueprint, jsonify\n" ++
  "from app import create_app\n" ++
  "\n" ++
  "main_bp = Blueprint('main', __name__)\n" ++
  "\n" ++
  "@main_bp.route('/')\n" ++
  "def index():\n" ++
  "    return jsonify(\x7b\"message\": \"Welcome to " ++ projectName ++ "\"\x7d)\n" ++
  "\n" ++
  "@main_bp.route('/health')\n" ++
  "def health():\n" ++
  "    return jsonify(\x7b\"status\": \"healthy\"\x7d)\n"

/-- The `run.py` template of `createMainApplication`. -/
def runContent : String :=
  "from app import create_app\n" ++
  "\n" ++
  "app = create_app()\n" ++
  "\n" ++
  "if __name__ == '__main__':\n" ++
  "    app.run(debug=True, host='0.0.0.0', port=5000)\n"

/-- The `app/config.py` template of `createConfig`. -/
def configContent : String :=
  "import os\n" ++
  "from dotenv import load_dotenv\n" ++
  "\n" ++
  "load_dotenv()\n" ++
  "\n" ++
  "class Config:\n" ++
  "    SECRET_KEY = os.getenv('SECRET_KEY', 'dev-secret-key-change-in-production')\n" ++
  "    DEBUG = os.getenv('DEBUG', 'True') == 'True'\n"

/-- The `Dockerfile` template of `createDockerFiles`. -/
def dockerfileContent : String :=
  "FROM python:3.11-slim\n" ++
  "\n" ++
  "WORKDIR /app\n" ++
  "\n" ++
  "COPY requirements.txt .\n" ++
  "RUN pip install --no-cache-dir -r requirements.txt\n" ++
  "\n" ++
  "COPY . .\n" ++
  "\n" ++
  "CMD [\"python\", \"run.py\"]\n"

/-- The `docker-compose.yml` template of `createDockerFiles`. -/
def dockerComposeContent : String :=
  "version: '3.8'\n" ++
  "\n" ++
  "services:\n" ++
  "  web:\n" ++
  "    build: .\n" ++
  "    ports:\n" ++
  "      - \"5000:5000\"\n" ++
  "    environment:\n" ++
  "      - DEBUG=True\n" ++
  "    volumes:\n" ++
  "      - .:/app\n"

/-- The `tests/test_app.py` template of `createTestStructure`. -/
def testContent (projectName : String) : String :=
  "import pytest\n" ++
  "from app import create_app\n" ++
  "\n" ++
  "@pytest.fixture\n" ++
  "def app():\n" ++
  "    app = create_app()\n" ++
  "    app.config['TESTING'] = True\n" ++
  "    yield app\n" ++
  "\n" ++
  "@pytest.fixture\n" ++
  "def client(app):\n" ++
  "    return app.test_client()\n" ++
  "\n" ++
  "def test_index(client):\n" ++
  "    response = client.get('/')\n" ++
  "    assert response.status_code == 200\n" ++
  "    assert b\"Welcome to " ++ projectName ++ "\" in response.data\n" ++
  "\n" ++
  "def test_health(client):\n" ++
  "    response = client.get('/health')\n" ++
  "    assert response.status_code == 200\n" ++
  "    assert b\"healthy\" in response.data\n"

/-- The `.gitignore` template of `FlaskBuilder.createGitignore`. -/
def gitignoreContent : String :=
  "# Byte-compiled / optimized / DLL files\n" ++
  "__pycache__/\n" ++
  "*.py[cod]\n" ++
  "*$py.class\n" ++
  "\n" ++
  "# C extensions\n" ++
  "*.so\n" ++
  "\n" ++
  "# Distribution / packaging\n" ++
  ".Python\n" ++
  "build/\n" ++
  "develop-eggs/\n" ++
  "dist/\n" ++
  "downloads/\n" ++
  "eggs/\n" ++
  ".eggs/\n" ++
  "lib/\n" ++
  "lib64/\n" ++
  "parts/\n" ++
  "sdist/\n" ++
  "var/\n" ++
  "wheels/\n" ++
  "*.egg-info/\n" ++
  ".installed.cfg\n" ++
  "*.egg\n" ++
  "\n" ++
  "# Flask\n" ++
  "instance/\n" ++
  ".webassets-cache\n" ++
  "\n" ++
  "# Unit test / coverage reports\n" ++
  "htmlcov/\n" ++
  ".tox/\n" ++
  ".nox/\n" ++
  ".coverage\n" ++
  ".coverage.*\n" ++
  ".cache\n" ++
  "nosetests.xml\n" ++
  "coverage.xml\n" ++
  "*.cover\n" ++
  ".hypothesis/\n" ++
  ".pytest_cache/\n" ++
  "\n" ++
  "# Environments\n" ++
  ".env\n" ++
  ".venv\n" ++
  "env/\n" ++
  "venv/\n" ++
  "ENV/\n" ++
  "env.bak/\n" ++
  "venv.bak/\n" ++
  "\n" ++
  "# IDEs\n" ++
  ".vscode/\n" ++
  ".idea/\n" ++
  "*.swp\n" ++
  "*.swo\n" ++
  "*~\n" ++
  "\n" ++
  "# OS\n" ++
  ".DS_Store\n" ++
  "Thumbs.db\n"

/-- `createRequirements`. -/
def createRequirements (framework : String) : List Step :=
  [.op (.write ["requirements.txt"] (requirementsContent framework))]

/-- `createSourceStructure`: two recursive `mkdir`s below `app`. -/
def createSourceStructure : List Step :=
  [.op (.mkdir ["app", "static"]),
   .op (.mkdir ["app", "templates"])]

/-- `createMainApplication`. -/
def createMainApplication (projectName : String) : List Step :=
  [.op (.write ["app", "__init__.py"] initContent),
   .op (.write ["app", "routes.py"] (routesContent projectName)),
   .op (.write ["run.py"] runContent)]

/-- `createConfig`. -/
def createConfig : List Step :=
  [.op (.write ["app", "config.py"] configContent)]

/-- `FlaskBuilder.createGitignore`. -/
def createGitignore : List Step :=
  [.op (.write [".gitignore"] gitignoreContent)]

/-- `createDockerFiles`. -/
def createDockerFiles : List Step :=
  [.op (.write ["Dockerfile"] dockerfileContent),
   .op (.write ["docker-compose.yml"] dockerComposeContent)]

/-- `createTestStructure`. -/
def createTestStructure (projectName : String) : List Step :=
  [.op (.mkdir ["tests"]),
   .op (.write ["tests", "test_app.py"] (testContent projectName)),
   .op (.write ["tests", "__init__.py"] "")]

/-- The `try` block of `FlaskBuilder.build`.  `pythonVersion` is resolved as
in the source but never used by any step. -/
def buildSteps (config : ProjectConfig) : List Step :=
  let _pythonVersion := jsOr config.options.pythonVersion (JsVal.str "3.11")
  let useDocker := config.options.docker != some (JsVal.bool false)
  let useTests := config.options.tests != some (JsVal.bool false)
  .op (.mkdir []) ::
    (createRequirements config.framework ++
     createSourceStructure ++
     createMainApplication config.projectName ++
     createConfig ++
     createGitignore ++
     (if useDocker then createDockerFiles else []) ++
     (if useTests then createTestStructure config.projectName else []))

/-- `FlaskBuilder.build` with its hard-coded success `files` list. -/
def build (fail : Nat → Option String) (config : ProjectConfig) : BuilderResult × List FsOp :=
  runBuild fail (buildSteps config)
    ("Flask project '" ++ config.projectName ++ "' created successfully")
    ["requirements.txt", "app/__init__.py", "app/routes.py", "app/config.py"]
    "Failed to create Flask project"

end FlaskBuilder

namespace SpringBootBuilder

/-- `supportedFrameworks` of `SpringBootBuilder`. -/
def frameworks : List String := supportedFrameworks .springBoot

/-- A regex `\w` word character (`[A-Za-z0-9_]`). -/
def isWordChar (c : Char) : Bool := c.isAlphanum || c == '_'

/-- The global scan of `str.replace(/(^\w|-\w)/g, m => m.replace('-', '').toUpperCase())`
past the first position: each `-` followed by a word character is replaced by
that character upper-cased, everything else is copied. -/
def pascalAux : List Char → List Char
  | [] => []
  | '-' :: c :: rest =>
    if isWordChar c then c.toUpper :: pascalAux rest else '-' :: pascalAux (c :: rest)
  | c :: rest => c :: pascalAux rest

/-- `toPascalCase` of `SpringBootBuilder`: the `^\w` alternative upper-cases a
leading word character, then the scan continues with the `-\w` alternative. -/
def toPascalCase (s : String) : String :=
  match s.data with
  | [] => ""
  | c :: rest =>
    if isWordChar c then String.mk (c.toUpper :: pascalAux rest)
    else String.mk (pascalAux (c :: rest))

/-- `options.javaVersion || '17'` (line 16 of the builder): the declared value
whenever it is truthy — whatever its runtime type — else the default string. -/
def resolveJavaVersion (options : Options) : JsVal :=
  jsOr options.javaVersion (JsVal.str "17")

/-- `generatePomXml`: the four values are interpolated with template
literals, so non-string runtime values are stringified. -/
def generatePomXml (groupId artifactId version javaVersion : JsVal) : String :=
  "<?xml version=\"1.0\" encoding=\"UTF-8\"?>\n" ++
  "<project xmlns=\"http://maven.apache.org/POM/4.0.0\"\n" ++
  "         xmlns:xsi=\"http://www.w3.org/2001/XMLSchema-instance\"\n" ++
  "         xsi:schemaLocation=\"http://maven.apache.org/POM/4.0.0\n" ++
  "         http://maven.apache.org/xsd/maven-4.0.0.xsd\">\n" ++
  "    <modelVersion>4.0.0</modelVersion>\n" ++
  "\n" ++
  "    <parent>\n" ++
  "        <groupId>org.springframework.boot</groupId>\n" ++
  "        <artifactId>spring-boot-starter-parent</artifactId>\n" ++
  "        <version>" ++ version.render ++ "</version>\n" ++
  "        <relativePath/>\n" ++
  "    </parent>\n" ++
  "\n" ++
  "    <groupId>" ++ groupId.render ++ "</groupId>\n" ++
  "    <artifactId>" ++ artifactId.render ++ "</artifactId>\n" ++
  "    <version>1.0.0</version>\n" ++
  "    <name>" ++ artifactId.render ++ "</name>\n" ++
  "    <description>Spring Boot Project</description>\n" ++
  "\n" ++
  "    <properties>\n" ++
  "        <java.version>" ++ javaVersion.render ++ "</java.version>\n" ++
  "    </properties>\n" ++
  "\n" ++
  "    <dependencies>\n" ++
  "        <dependency>\n" ++
  "            <groupId>org.springframework.boot</groupId>\n" ++
  "            <artifactId>spring-boot-starter-web</artifactId>\n" ++
  "        </dependency>\n" ++
  "        <dependency>\n" ++
  "            <groupId>org.springframework.boot</groupId>\n" ++
  "            <artifactId>spring-boot-starter-data-jpa</artifactId>\n" ++
  "        </dependency>\n" ++
  "        <dependency>\n" ++
  "            <groupId>com.h2database</groupId>\n" ++
  "            <artifactId>h2</artifactId>\n" ++
  "            <scope>runtime</scope>\n" ++
  "        </dependency>\n" ++
  "        <dependency>\n" ++
  "            <groupId>org.springframework.boot</groupId>\n" ++
  "            <artifactId>spring-boot-starter-test</artifactId>\n" ++
  "            <scope>test</scope>\n" ++
  "        </dependency>\n" ++
  "    </dependencies>\n" ++
  "\n" ++
  "    <build>\n" ++
  "        <plugins>\n" ++
  "            <plugin>\n" ++
  "                <groupId>org.springframework.boot</groupId>\n" ++
  "                <artifactId>spring-boot-maven-plugin</artifactId>\n" ++
  "            </plugin>\n" ++
  "        </plugins>\n" ++
  "    </build>\n" ++
  "</project>"

/-- The `application.properties` template of `createApplicationProperties`. -/
def applicationPropertiesContent : String :=
  "spring.application.name=application\n" ++
  "server.port=8080\n" ++
  "\n" ++
  "# H2 Database Configuration\n" ++
  "spring.datasource.url=jdbc:h2:mem:testdb\n" ++
  "spring.datasource.driverClassName=org.h2.Driver\n" ++
  "spring.datasource.username=sa\n" ++
  "spring.datasource.password=password\n" ++
  "spring.jpa.database-platform=org.hibernate.dialect.H2Dialect\n" ++
  "\n" ++
  "# JPA Configuration\n" ++
  "spring.jpa.hibernate.ddl-auto=update\n" ++
  "spring.jpa.show-sql=true\n"

/-- The main-class template of `createMainApplication`. -/
def mainApplicationContent (groupId className : String) : String :=
  "package " ++ groupId ++ ";\n" ++
  "\n" ++
  "import org.springframework.boot.SpringApplication;\n" ++
  "import org.springframework.boot.autoconfigure.SpringBootApplication;\n" ++
  "\n" ++
  "@SpringBootApplication\n" ++
  "public class " ++ className ++ "Application \x7b\n" ++
  "\n" ++
  "    public static void main(String[] args) \x7b\n" ++
  "        SpringApplication.run(" ++ className ++ "Application.class, args);\n" ++
  "    \x7d\n" ++
  "\x7d\n"

/-- The `.gitignore` template of `SpringBootBuilder.createGitignore`. -/
def gitignoreContent : String :=
  "HELP.md\n" ++
  "target/\n" ++
  "!.mvn/wrapper/maven-wrapper.jar\n" ++
  "!**/src/main/**/target/\n" ++
  "!**/src/test/**/target/\n" ++
  "\n" ++
  "### STS ###\n" ++
  ".apt_generated\n" ++
  ".classpath\n" ++
  ".factorypath\n" ++
  ".project\n" ++
  ".settings\n" ++
  ".springBeans\n" ++
  ".sts4-cache\n" ++
  "\n" ++
  "### IntelliJ IDEA ###\n" ++
  ".idea\n" ++
  "*.iws\n" ++
  "*.iml\n" ++
  "*.ipr\n" ++
  "\n" ++
  "### NetBeans ###\n" ++
  "/nbproject/private/\n" ++
  "/nbbuild/\n" ++
  "/dist/\n" ++
  "/nbdist/\n" ++
  "/.nb-gradle/\n" ++
  "build/\n" ++
  "!**/src/main/**/build/\n" ++
  "!**/src/test/**/build/\n" ++
  "\n" ++
  "### VS Code ###\n" ++
  ".vscode/\n"

/-- The package directories of a dotted `groupId`
(`groupId.replace(/\./g, '/')`, which `path.join` then splits back into
segments). -/
def packageSegments (groupId : String) : List String := groupId.splitOn "."

/-- `createSourceStructure(projectPath, groupId, artifactId)`: three recursive
`mkdir`s.  `groupId.replace` throws a `TypeError` when the resolved `groupId`
is not a string (the runtime value came from the untyped options record). -/
def createSourceStructure (groupId : JsVal) : List Step :=
  match groupId with
  | .str g =>
    [.op (.mkdir (["src", "main", "java"] ++ packageSegments g)),
     .op (.mkdir ["src", "main", "resources"]),
     .op (.mkdir (["src", "test", "java"] ++ packageSegments g))]
  | _ => [.jsError "groupId.replace is not a function"]

/-- `createApplicationProperties`. -/
def createApplicationProperties : List Step :=
  [.op (.write ["src", "main", "resources", "application.properties"] applicationPropertiesContent)]

/-- `createMainApplication(projectPath, groupId, artifactId)`: again
`groupId.replace` first, then `toPascalCase(artifactId)` calls
`artifactId.replace`, each throwing on a non-string value. -/
def createMainApplication (groupId artifactId : JsVal) : List Step :=
  match groupId with
  | .str g =>
    match artifactId with
    | .str a =>
      [.op (.write (["src", "main", "java"] ++ packageSegments g ++ [toPascalCase a ++ "Application.java"])
        (mainApplicationContent g (toPascalCase a)))]
    | _ => [.jsError "str.replace is not a function"]
  | _ => [.jsError "groupId.replace is not a function"]

/-- `SpringBootBuilder.createGitignore`. -/
def createGitignore : List Step :=
  [.op (.write [".gitignore"] gitignoreContent)]

/-- The `try` block of `SpringBootBuilder.build`: resolve the four options
with `||` defaulting (lines 16–19), write `pom.xml`, then the source
structure, properties, main class and gitignore. -/
def buildSteps (config : ProjectConfig) : List Step :=
  let javaVersion := resolveJavaVersion config.options
  let springBootVersion := jsOr config.options.springBootVersion (JsVal.str "3.2.0")
  let groupId := jsOr config.options.groupId (JsVal.str "com.example")
  let artifactId := jsOr config.options.artifactId (JsVal.str config.projectName)
  .op (.mkdir []) ::
    (.op (.write ["pom.xml"] (generatePomXml groupId artifactId springBootVersion javaVersion)) ::
      (createSourceStructure groupId ++
       createApplicationProperties ++
       createMainApplication groupId artifactId ++
       createGitignore))

/-- `SpringBootBuilder.build` with its hard-coded success `files` list (the
literal `'src/main/java/.../Application.java'` placeholder included). -/
def build (fail : Nat → Option String) (config : ProjectConfig) : BuilderResult × List FsOp :=
  runBuild fail (buildSteps config)
    ("Spring Boot project '" ++ config.projectName ++ "' created successfully")
    ["pom.xml", "src/main/resources/application.properties", "src/main/java/.../Application.java"]
    "Failed to create Spring Boot project"

end SpringBootBuilder

theorem toNat_ofNat_valid (n : Nat) (h : n.isValidChar) : (Char.ofNat n).toNat = n := by
  rw [Char.ofNat, dif_pos h]
  rfl

theorem lowerChar_not_upper (c : Char) : ¬(65 ≤ (lowerChar c).toNat ∧ (lowerChar c).toNat ≤ 90) := by
  by_cases h : 65 ≤ c.toNat ∧ c.toNat ≤ 90
  · have hv : (c.toNat + 32).isValidChar := Or.inl (by omega)
    have hc : lowerChar c = Char.ofNat (c.toNat + 32) := by rw [lowerChar, if_pos h]
    rw [hc, toNat_ofNat_valid _ hv]
    omega
  · have hc : lowerChar c = c := by rw [lowerChar, if_neg h]
    rw [hc]
    exact h

theorem lowerChar_idem (c : Char) : lowerChar (lowerChar c) = lowerChar c := by
  rw [lowerChar, if_neg (lowerChar_not_upper c)]

theorem toLowerCase_idem (s : String) : toLowerCase (toLowerCase s) = toLowerCase s := by
  simp [toLowerCase, List.map_map, Function.comp_def, lowerChar_idem]

theorem runBuild_cases (fail : Nat → Option String) (steps : List Step)
    (okMsg : String) (okFiles : List String) (failMsg : String) :
    ((runBuild fail steps okMsg okFiles failMsg).1.success = true ∧
      (runBuild fail steps okMsg okFiles failMsg).1.message = okMsg ∧
      (runBuild fail steps okMsg okFiles failMsg).1.error = none) ∨
    ((runBuild fail steps okMsg okFiles failMsg).1.success = false ∧
      (runBuild fail steps okMsg okFiles failMsg).1.message = failMsg ∧
      ((runBuild fail steps okMsg okFiles failMsg).1.error).isSome = true) := by
  rcases hr : runSteps fail 0 steps with ⟨done, e⟩
  cases e <;> simp [runBuild, hr]

theorem runBuild_trace (fail : Nat → Option String) (steps : List Step)
    (okMsg : String) (okFiles : List String) (failMsg : String) :
    (runBuild fail steps okMsg okFiles failMsg).2 = (runSteps fail 0 steps).1 := by
  rcases hr : runSteps fail 0 steps with ⟨done, e⟩
  cases e <;> simp [runBuild, hr]

theorem runSteps_performed_isPrefixOf (fail : Nat → Option String) (i : Nat) (steps : List Step) :
    (runSteps fail i steps).1 <+: stepsOps steps := by
  induction steps generalizing i with
  | nil => simp [runSteps, stepsOps]
  | cons s rest ih =>
    cases s with
    | op o =>
      simp only [runSteps]
      cases fail i with
      | some e => exact List.nil_prefix
      | none =>
        obtain ⟨t, ht⟩ := ih (i + 1)
        exact ⟨t, by simp [stepsOps, List.filterMap_cons, ← ht, stepsOps] at *; simp [← ht]⟩
    | jsError e => exact List.nil_prefix

theorem runSteps_complete (fail : Nat → Option String) (i : Nat) (steps : List Step)
    (h : (runSteps fail i steps).2 = none) :
    (runSteps fail i steps).1 = stepsOps steps := by
  induction steps generalizing i with
  | nil => simp [runSteps, stepsOps]
  | cons s rest ih =>
    cases s with
    | op o =>
      rcases hf : fail i with _ | e
      · have h' : (runSteps fail (i + 1) rest).2 = none := by
          simpa [runSteps, hf] using h
        simp [runSteps, hf, stepsOps, List.filterMap_cons, ih (i + 1) h']
      · exfalso
        simp [runSteps, hf] at h
    | jsError e => simp [runSteps] at h

theorem orderedOpsB_append (l₁ l₂ : List FsOp) (dirs : List (List String))
    (h : orderedOpsB dirs (l₁ ++ l₂) = true) : orderedOpsB dirs l₁ = true := by
  induction l₁ generalizing dirs with
  | nil => simp [orderedOpsB]
  | cons o rest ih =>
    cases o with
    | mkdir p =>
      rw [List.cons_append, orderedOpsB] at h
      rw [orderedOpsB]
      exact ih _ h
    | write p c =>
      rw [List.cons_append, orderedOpsB, Bool.and_eq_true] at h
      rw [orderedOpsB, Bool.and_eq_true]
      exact ⟨h.1, ih _ h.2⟩

theorem orderedOpsB_mono (l₁ l₂ : List FsOp) (dirs : List (List String))
    (hp : l₁ <+: l₂) (h : orderedOpsB dirs l₂ = true) : orderedOpsB dirs l₁ = true := by
  obtain ⟨t, ht⟩ := hp
  exact orderedOpsB_append l₁ t dirs (ht ▸ h)

set_option maxRecDepth 4000

theorem react_steps_ordered_core (n : String) (uv ut : Bool) :
    orderedOpsB [] (stepsOps (Step.op (FsOp.mkdir []) ::
      (if uv then ReactBuilder.createViteReactProject n ut
       else ReactBuilder.createCRAProject n ut))) = true := by
  cases uv <;> cases ut <;> rfl

theorem react_buildSteps_ordered (config : ProjectConfig) :
    orderedOpsB [] (stepsOps (ReactBuilder.buildSteps config)) = true :=
  react_steps_ordered_core config.projectName
    (config.framework == "react-vite" || config.framework == "react")
    (config.options.typescript != some (JsVal.bool false))

theorem flask_steps_ordered_core (fw n : String) (ud ut : Bool) :
    orderedOpsB [] (stepsOps (Step.op (FsOp.mkdir []) ::
      (FlaskBuilder.createRequirements fw ++
       FlaskBuilder.createSourceStructure ++
       FlaskBuilder.createMainApplication n ++
       FlaskBuilder.createConfig ++
       FlaskBuilder.createGitignore ++
       (if ud then FlaskBuilder.createDockerFiles else []) ++
       (if ut then FlaskBuilder.createTestStructure n else [])))) = true := by
  cases ud <;> cases ut <;> rfl

theorem flask_buildSteps_ordered (config : ProjectConfig) :
    orderedOpsB [] (stepsOps (FlaskBuilder.buildSteps config)) = true :=
  flask_steps_ordered_core config.framework config.projectName
    (config.options.docker != some (JsVal.bool false))
    (config.options.tests != some (JsVal.bool false))

/-- Claim C1: a request whose `framework` matches no registered identifier is
rejected by the handler before any builder (hence any filesystem activity)
runs, and the rejection message enumerates the registered identifiers — in
particular it contains the valid identifier `react`. -/
theorem C1_unknown_framework_rejected (projectName framework : String)
    (hn : projectName ≠ "") (hf : framework ≠ "") (h : getBuilder framework = none) :
    handleBuildProject projectName framework =
      CallOutcome.unknown ("Unsupported framework: " ++ framework ++ ". Supported frameworks: "
        ++ String.intercalate ", " getSupportedFrameworks) ∧
    "react" ∈ getSupportedFrameworks ∧
    "react".data <:+: ("Unsupported framework: " ++ framework ++ ". Supported frameworks: "
        ++ String.intercalate ", " getSupportedFrameworks).data ∧
    ∀ buildOps : BuilderId → List FsOp,
      callFsOps buildOps (handleBuildProject projectName framework) = [] := by
  have hcond : (projectName == "" || framework == "") = false := by
    simp [hn, hf]
  have hmain : handleBuildProject projectName framework =
      CallOutcome.unknown ("Unsupported framework: " ++ framework ++ ". Supported frameworks: "
        ++ String.intercalate ", " getSupportedFrameworks) := by
    simp [handleBuildProject, hcond, h]
  refine ⟨hmain, by decide, ?_, ?_⟩
  · have h1 : "react".data <:+: (String.intercalate ", " getSupportedFrameworks).data := by
      decide
    have h2 : "react".data <:+:
        ("Unsupported framework: " ++ framework ++ ". Supported frameworks: ").data
          ++ (String.intercalate ", " getSupportedFrameworks).data :=
      h1.trans (List.suffix_append _ _).isInfix
    simpa [String.data_append] using h2
  · intro buildOps
    rw [hmain]
    rfl

/-- Claim C1 witness: the concrete Scenario B request. -/
theorem C1_unknown_framework_witness :
    handleBuildProject "demo2" "not-a-real-framework" =
      CallOutcome.unknown ("Unsupported framework: " ++ "not-a-real-framework"
        ++ ". Supported frameworks: " ++ String.intercalate ", " getSupportedFrameworks) :=
  (C1_unknown_framework_rejected "demo2" "not-a-real-framework"
    (by decide) (by decide) (by decide)).1

/-- Claim C2: for every config and every filesystem-failure pattern, the
React and Express builds return a `BuilderResult` — never an exception:
either success with no error field, or failure with the generic message and
the captured error text present. -/
theorem C2_build_never_propagates (fail : Nat → Option String) (config : ProjectConfig) :
    (((ReactBuilder.build fail config).1.success = true ∧
        (ReactBuilder.build fail config).1.error = none) ∨
      ((ReactBuilder.build fail config).1.success = false ∧
        (ReactBuilder.build fail config).1.message = "Failed to create React project" ∧
        ((ReactBuilder.build fail config).1.error).isSome = true)) ∧
    (((ExpressBuilder.build fail config).1.success = true ∧
        (ExpressBuilder.build fail config).1.error = none) ∨
      ((ExpressBuilder.build fail config).1.success = false ∧
        (ExpressBuilder.build fail config).1.message = "Failed to create Express project" ∧
        ((ExpressBuilder.build fail config).1.error).isSome = true)) := by
  constructor
  · rcases runBuild_cases fail (ReactBuilder.buildSteps config)
      ("React project '" ++ config.projectName ++ "' created successfully")
      ["package.json", "src/App.tsx", "src/main.tsx", "index.html"]
      "Failed to create React project" with ⟨hs, _, he⟩ | ⟨hs, hm, he⟩
    · exact Or.inl ⟨hs, he⟩
    · exact Or.inr ⟨hs, hm, he⟩
  · rcases runBuild_cases fail (ExpressBuilder.buildSteps config)
      ("Express project '" ++ config.projectName ++ "' created successfully")
      ["package.json", "src/app.ts", "src/routes.ts", "src/config.ts"]
      "Failed to create Express project" with ⟨hs, _, he⟩ | ⟨hs, hm, he⟩
    · exact Or.inl ⟨hs, he⟩
    · exact Or.inr ⟨hs, hm, he⟩

/-- Claim C3: at the Scenario C request (React, `typescript: false`) the build
succeeds, yet its returned `files` list names `src/App.tsx` and
`src/main.tsx`, which were never written — the written entry files are the
`.jsx` ones.  This exhibits the divergence between the hard-coded `files`
literal and the paths actually written. -/
theorem C3_success_files_not_written :
    ((ReactBuilder.build noFailure
        { projectName := "x", framework := "react",
          options := { typescript := some (JsVal.bool false) } }).1).success = true ∧
    ((ReactBuilder.build noFailure
        { projectName := "x", framework := "react",
          options := { typescript := some (JsVal.bool false) } }).1).files =
      some ["package.json", "src/App.tsx", "src/main.tsx", "index.html"] ∧
    "src/App.tsx" ∉ writePathStrs ((ReactBuilder.build noFailure
        { projectName := "x", framework := "react",
          options := { typescript := some (JsVal.bool false) } }).2) ∧
    "src/main.tsx" ∉ writePathStrs ((ReactBuilder.build noFailure
        { projectName := "x", framework := "react",
          options := { typescript := some (JsVal.bool false) } }).2) ∧
    "src/App.jsx" ∈ writePathStrs ((ReactBuilder.build noFailure
        { projectName := "x", framework := "react",
          options := { typescript := some (JsVal.bool false) } }).2) := by
  decide

/-- Claim C4: with `typescript: false` the React build writes the `.jsx`
entry files and no written path has a `.ts`/`.tsx` extension; omitting the
key yields the default (`options.typescript !== false` is true) and the
`.tsx` entry files are written. -/
theorem C4_typescript_false_entry_files :
    "src/App.jsx" ∈ writePathStrs ((ReactBuilder.build noFailure
        { projectName := "x", framework := "react",
          options := { typescript := some (JsVal.bool false) } }).2) ∧
    "src/main.jsx" ∈ writePathStrs ((ReactBuilder.build noFailure
        { projectName := "x", framework := "react",
          options := { typescript := some (JsVal.bool false) } }).2) ∧
    (∀ p ∈ writePathStrs ((ReactBuilder.build noFailure
        { projectName := "x", framework := "react",
          options := { typescript := some (JsVal.bool false) } }).2),
      hasSuffix p ".tsx" = false ∧ hasSuffix p ".ts" = false) ∧
    ({ projectName := "x", framework := "react" } : ProjectConfig).options.typescript = none ∧
    "src/App.tsx" ∈ writePathStrs ((ReactBuilder.build noFailure
        { projectName := "x", framework := "react" }).2) ∧
    "src/main.tsx" ∈ writePathStrs ((ReactBuilder.build noFailure
        { projectName := "x", framework := "react" }).2) := by
  decide

/-- Claim C5 counterexample: the number `42` declared for the string-typed
`javaVersion` is *not* treated as absent — `options.javaVersion || '17'`
resolves it to `42` itself, not to the documented default `'17'`. -/
theorem C5_counterexample :
    SpringBootBuilder.resolveJavaVersion { javaVersion := some (JsVal.num 42) } = JsVal.num 42 ∧
    SpringBootBuilder.resolveJavaVersion { javaVersion := some (JsVal.num 42) } ≠ JsVal.str "17" := by
  decide

/-- Claim C5 (amended): option defaulting is JavaScript truthiness, not a
type check — a falsy declared value is treated as absent (default applies), a
truthy value of any runtime type is used as-is; for the boolean `typescript`
key any value other than literal `false` yields the default behaviour; and
the Spring Boot build still succeeds with a mismatched `javaVersion` (the
value is only interpolated into `pom.xml`). -/
theorem C5_option_mismatch_not_typechecked (v d : JsVal) (n f : String) :
    (JsVal.truthy v = true → jsOr (some v) d = v) ∧
    (JsVal.truthy v = false → jsOr (some v) d = d) ∧
    jsOr none d = d ∧
    (v ≠ JsVal.bool false →
      ReactBuilder.buildSteps
          { projectName := n, framework := f, options := { typescript := some v } } =
        ReactBuilder.buildSteps { projectName := n, framework := f }) ∧
    (SpringBootBuilder.build noFailure
        { projectName := n, framework := f, options := { javaVersion := some v } }).1.success =
      true := by
  refine ⟨?_, ?_, rfl, ?_, ?_⟩
  · intro h
    simp [jsOr, h]
  · intro h
    simp [jsOr, h]
  · intro h
    have ht : (some v != some (JsVal.bool false)) = true := by simp [h]
    simp only [ReactBuilder.buildSteps, ht]
    rfl
  · rfl

/-- Claim C5 witness: the mismatched `javaVersion` number is passed through,
and a mismatched string `typescript` leaves the React composition at its
default. -/
theorem C5_option_mismatch_witness :
    jsOr (some (JsVal.num 42)) (JsVal.str "17") = JsVal.num 42 ∧
    ReactBuilder.buildSteps
        { projectName := "x", framework := "react",
          options := { typescript := some (JsVal.str "yes") } } =
      ReactBuilder.buildSteps { projectName := "x", framework := "react" } :=
  ⟨(C5_option_mismatch_not_typechecked (JsVal.num 42) (JsVal.str "17") "x" "react").1 (by decide),
   (C5_option_mismatch_not_typechecked (JsVal.str "yes") (JsVal.str "17") "x" "react").2.2.2.1
     (by decide)⟩

/-- Claim C6 counterexample: `spring` is a strict prefix of the registered
alias `spring-boot`, yet it does not resolve to nothing — it is itself a
registered alias and resolves to the Spring Boot builder. -/
theorem C6_counterexample :
    "spring".data <+: "spring-boot".data ∧
    "spring" ≠ "spring-boot" ∧
    "spring-boot" ∈ supportedFrameworks BuilderId.springBoot ∧
    getBuilder "spring" ≠ none := by
  decide

/-- Claim C6 (amended): resolution is case-insensitive exact match —
`getBuilder s` equals `getBuilder` of the lower-cased string, in particular
for `REACT`/`react`; and a string whose lower-casing is in no builder's alias
set resolves to nothing, so no fuzzy or prefix matching occurs for
identifiers that are not themselves aliases (e.g. `reac`, `reactx`). -/
theorem C6_resolve_case_insensitive_exact (s : String) :
    getBuilder s = getBuilder (toLowerCase s) ∧
    getBuilder "REACT" = getBuilder "react" ∧
    ((∀ b : BuilderId, (supportedFrameworks b).contains (toLowerCase s) = false) →
      getBuilder s = none) ∧
    getBuilder "reac" = none ∧
    getBuilder "reactx" = none := by
  refine ⟨?_, by decide, ?_, by decide, by decide⟩
  · simp [getBuilder, toLowerCase_idem]
  · intro hall
    unfold getBuilder
    refine List.find?_eq_none.mpr ?_
    intro b _
    simpa using hall b

/-- Claim C6 witness: an identifier registered nowhere resolves to nothing. -/
theorem C6_resolve_witness : getBuilder "not-a-framework" = none :=
  (C6_resolve_case_insensitive_exact "not-a-framework").2.2.1 (by decide)

/-- Claim C7 counterexample: `REACT` and `react` resolve to the same builder,
but the two builds write different file trees. -/
theorem C7_counterexample :
    getBuilder "REACT" = getBuilder "react" ∧
    writePathStrs ((ReactBuilder.build noFailure
        { projectName := "demo", framework := "REACT" }).2) ≠
      writePathStrs ((ReactBuilder.build noFailure
        { projectName := "demo", framework := "react" }).2) := by
  decide

/-- Claim C7 (amended): case-insensitivity stops at registry resolution.
`REACT` and `react` both resolve to the React builder, but `build` selects
its template variant by case-sensitive `===` against the original string, so
`react` takes the Vite branch (root `index.html`) while `REACT` falls to the
CRA branch (`public/index.html`), producing different file trees. -/
theorem C7_variant_selection_case_sensitive :
    getBuilder "REACT" = some BuilderId.react ∧
    getBuilder "react" = some BuilderId.react ∧
    ("react" == "react-vite" || "react" == "react") = true ∧
    ("REACT" == "react-vite" || "REACT" == "react") = false ∧
    "index.html" ∈ writePathStrs ((ReactBuilder.build noFailure
        { projectName := "demo", framework := "react" }).2) ∧
    "public/index.html" ∈ writePathStrs ((ReactBuilder.build noFailure
        { projectName := "demo", framework := "REACT" }).2) ∧
    "public/index.html" ∉ writePathStrs ((ReactBuilder.build noFailure
        { projectName := "demo", framework := "react" }).2) := by
  decide

/-- Claim C8: distinct registered builders claim disjoint identifier sets,
and dispatch is therefore unambiguous: when `getBuilder` resolves an
identifier to a builder, no other builder's alias set contains the
lower-cased identifier. -/
theorem C8_identifier_sets_disjoint :
    (∀ b₁ b₂ : BuilderId, b₁ ≠ b₂ →
      ∀ s : String, s ∈ supportedFrameworks b₁ → s ∉ supportedFrameworks b₂) ∧
    (∀ (f : String) (b₁ b₂ : BuilderId), getBuilder f = some b₁ →
      toLowerCase f ∈ supportedFrameworks b₂ → b₁ = b₂) := by
  have hdisj : ∀ b₁ b₂ : BuilderId, b₁ ≠ b₂ →
      ∀ s : String, s ∈ supportedFrameworks b₁ → s ∉ supportedFrameworks b₂ := by
    decide
  refine ⟨hdisj, ?_⟩
  intro f b₁ b₂ hfind hmem
  by_contra hne
  have hp := List.find?_some hfind
  have hm1 : toLowerCase f ∈ supportedFrameworks b₁ := by
    simpa using hp
  exact hdisj b₁ b₂ hne _ hm1 hmem

/-- Claim C8 witness: `react` is claimed by the React builder only. -/
theorem C8_disjoint_witness : "react" ∉ supportedFrameworks BuilderId.vite :=
  C8_identifier_sets_disjoint.1 BuilderId.react BuilderId.vite (by decide) "react" (by decide)

/-- Claim C9: the React-Vite and Vite compositions are deterministic — for a
fixed project name and resolved `useTypeScript`, any two runs that complete
(under arbitrary, possibly different filesystem environments) perform
byte-identical file sequences: same paths, same content, same count. -/
theorem C9_compose_deterministic (projectName : String) (useTypeScript : Bool)
    (f₁ f₂ f₃ f₄ : Nat → Option String)
    (h₁ : (runSteps f₁ 0 (ReactBuilder.createViteReactProject projectName useTypeScript)).2 = none)
    (h₂ : (runSteps f₂ 0 (ReactBuilder.createViteReactProject projectName useTypeScript)).2 = none)
    (h₃ : (runSteps f₃ 0 (ViteBuilder.createViteProject projectName useTypeScript)).2 = none)
    (h₄ : (runSteps f₄ 0 (ViteBuilder.createViteProject projectName useTypeScript)).2 = none) :
    (runSteps f₁ 0 (ReactBuilder.createViteReactProject projectName useTypeScript)).1 =
      (runSteps f₂ 0 (ReactBuilder.createViteReactProject projectName useTypeScript)).1 ∧
    (runSteps f₃ 0 (ViteBuilder.createViteProject projectName useTypeScript)).1 =
      (runSteps f₄ 0 (ViteBuilder.createViteProject projectName useTypeScript)).1 := by
  constructor
  · rw [runSteps_complete _ _ _ h₁, runSteps_complete _ _ _ h₂]
  · rw [runSteps_complete _ _ _ h₃, runSteps_complete _ _ _ h₄]

/-- Claim C9 witness: two complete runs at a concrete project. -/
theorem C9_compose_witness :
    (runSteps noFailure 0 (ReactBuilder.createViteReactProject "demo" true)).1 =
      (runSteps noFailure 0 (ReactBuilder.createViteReactProject "demo" true)).1 ∧
    (runSteps noFailure 0 (ViteBuilder.createViteProject "demo" true)).1 =
      (runSteps noFailure 0 (ViteBuilder.createViteProject "demo" true)).1 :=
  C9_compose_deterministic "demo" true noFailure noFailure noFailure noFailure rfl rfl rfl rfl

/-- Claim C10: in every React and Flask build, whatever the failure pattern,
the performed filesystem calls are ordered — the first composed call is the
recursive creation of the project root, and every file write's parent
directory (the root included) was created by an earlier `mkdir` of the same
invocation. -/
theorem C10_fs_ops_ordered (fail : Nat → Option String) (config : ProjectConfig) :
    (stepsOps (ReactBuilder.buildSteps config)).head? = some (FsOp.mkdir []) ∧
    orderedOpsB [] ((ReactBuilder.build fail config).2) = true ∧
    (stepsOps (FlaskBuilder.buildSteps config)).head? = some (FsOp.mkdir []) ∧
    orderedOpsB [] ((FlaskBuilder.build fail config).2) = true := by
  refine ⟨?_, ?_, ?_, ?_⟩
  · simp [ReactBuilder.buildSteps, stepsOps]
  · have htr : (ReactBuilder.build fail config).2 =
        (runSteps fail 0 (ReactBuilder.buildSteps config)).1 :=
      runBuild_trace fail _ _ _ _
    rw [htr]
    exact orderedOpsB_mono _ _ _ (runSteps_performed_isPrefixOf fail 0 _)
      (react_buildSteps_ordered config)
  · simp [FlaskBuilder.buildSteps, stepsOps]
  · have htr : (FlaskBuilder.build fail config).2 =
        (runSteps fail 0 (FlaskBuilder.buildSteps config)).1 :=
      runBuild_trace fail _ _ _ _
    rw [htr]
    exact orderedOpsB_mono _ _ _ (runSteps_performed_isPrefixOf fail 0 _)
      (flask_buildSteps_ordered config)
